import Mathlib

/-!
Verification of the Student Fee Manager core (`student1.py`): the strict
schema validation of `open_file`, the derived-field recomputation
`_recalculate_business_rules`, the search and date filters, and row
deletion, shallowly embedded over lists of rows.  A table is a list of
rows; a cell is missing (`NaN`), a string, or an integer.
-/

/-- A cell of the DataFrame: pandas reads an empty Excel cell as the float
`NaN` (`na` here), text as a string, and a number as an integer (the
program only ever stores integers in numeric columns, so integers stand in
for the numeric values). -/
inductive Value where
  | na : Value
  | str : String → Value
  | int : Int → Value
deriving DecidableEq, Repr

/-- Python truthiness of a cell, as `not row.get("Fee Paid On")` uses it in
`_recalculate_business_rules`: the float `NaN` is truthy in Python, while
the empty string and the number 0 are falsy. -/
def truthy : Value → Bool
  | .na => true
  | .str s => s != ""
  | .int n => n != 0

/-- How `refresh_table` renders a cell (`"" if pd.isna(val) else str(val)`):
a missing cell displays as the empty string. -/
def display : Value → String
  | .na => ""
  | .str s => s
  | .int n => toString n

/-- Model of `Series.astype(str)` on one cell, as `apply_search` uses it: note that
`NaN` becomes the literal string "nan", not the empty string. -/
def astype_str : Value → String
  | .na => "nan"
  | .str s => s
  | .int n => toString n

/-- Lowercase one character (ASCII, the range the program's data uses). -/
def lowerChar (c : Char) : Char :=
  if 'A' ≤ c && c ≤ 'Z' then Char.ofNat (c.toNat + 32) else c

/-- Model of `str.lower()` on a string given as its character list. -/
def pyLower (s : List Char) : List Char := s.map lowerChar

/-- The whitespace characters Python's `str.strip()` removes (ASCII). -/
def isSpaceChar (c : Char) : Bool :=
  c == ' ' || c == '\t' || c == '\n' || c == '\r' || c == '\x0b' || c == '\x0c'

/-- Model of `str.strip()`: whitespace removed from both ends. -/
def pyStrip (s : List Char) : List Char :=
  ((s.dropWhile isSpaceChar).reverse.dropWhile isSpaceChar).reverse

/-- The value of a decimal digit character. -/
def digitVal (c : Char) : Option Nat :=
  if c.isDigit then some (c.toNat - 48) else none

/-- A nonempty all-digit character list read as a decimal number
(accumulator form); fails on the first non-digit. -/
def natOfDigitsAux : List Char → Nat → Option Nat
  | [], acc => some acc
  | c :: cs, acc =>
    match digitVal c with
    | some d => natOfDigitsAux cs (10 * acc + d)
    | none => none

/-- A nonempty all-digit character list read as a decimal number. -/
def natOfDigits : List Char → Option Nat
  | [] => none
  | c :: cs => natOfDigitsAux (c :: cs) 0

/-- An optionally signed decimal integer literal. -/
def intOfChars : List Char → Option Int
  | [] => none
  | '-' :: cs => (natOfDigits cs).map fun n => -(n : Int)
  | '+' :: cs => (natOfDigits cs).map fun n => (n : Int)
  | c :: cs => (natOfDigits (c :: cs)).map fun n => (n : Int)

/-- Split a character list at each '-'. -/
def splitDash : List Char → List (List Char)
  | [] => [[]]
  | c :: cs =>
    if c == '-' then [] :: splitDash cs
    else
      match splitDash cs with
      | [] => [[c]]
      | g :: gs => (c :: g) :: gs

/-- Model of `pd.to_numeric(cell, errors='coerce')`, restricted on integer literals: a
string parses when it is an optionally signed decimal integer, anything
else (including a missing cell) coerces to missing. -/
def to_numeric : Value → Option Int
  | .na => none
  | .str s => intOfChars s.toList
  | .int n => some n

/-- Model of `pd.to_numeric(cell, errors='coerce').fillna(0).astype(int)` on one
cell: the parsed integer, or 0 on a failed parse or missing value. -/
def fillna0 (v : Value) : Int := (to_numeric v).getD 0

/-- One row of the strict table, the ten columns in order. -/
structure Row where
  name : Value
  mobileNumber : Value
  year : Value
  dept : Value
  feeAmount : Value
  feePaid : Value
  balance : Value
  dueDate : Value
  email : Value
  feePaidOn : Value
deriving DecidableEq, Repr

/-- The ten cells of a row, in `STRICT_COLUMNS` order. -/
def cells (r : Row) : List Value :=
  [r.name, r.mobileNumber, r.year, r.dept, r.feeAmount, r.feePaid,
   r.balance, r.dueDate, r.email, r.feePaidOn]

/-- The canonical column list `STRICT_COLUMNS` (exact order and spelling). -/
def STRICT_COLUMNS : List String :=
  ["Name", "Mobile Number", "Year", "Dept",
   "Fee Amount", "Fee Paid", "Balance",
   "Due Date", "Email", "Fee Paid On"]

/-- The header check of `open_file`: the file is accepted exactly when
`list(df.columns) == STRICT_COLUMNS` (Python list equality: same length,
same names, same order, case-sensitively). -/
def headerAccepted (header : List String) : Bool := header == STRICT_COLUMNS

/-- The body of `_recalculate_business_rules` on one row.  Fee Amount and Fee Paid are
re-parsed (`to_numeric ... fillna(0) ... astype(int)`), Balance becomes
`(fee − paid).clip(lower=0)`; when the balance is 0 the paid-on date is
filled with today's date only when the current cell is falsy, and the due
date is cleared; otherwise the paid-on date is cleared and the due date is
left untouched. -/
def recomputeRow (today : String) (r : Row) : Row :=
  let fa := fillna0 r.feeAmount
  let fp := fillna0 r.feePaid
  let bal := max 0 (fa - fp)
  if bal = 0 then
    { r with feeAmount := .int fa, feePaid := .int fp, balance := .int bal,
             feePaidOn := if truthy r.feePaidOn then r.feePaidOn else .str today,
             dueDate := .str "" }
  else
    { r with feeAmount := .int fa, feePaid := .int fp, balance := .int bal,
             feePaidOn := .str "" }

/-- The whole of `_recalculate_business_rules` over a table: the per-row loop
touches each row independently. -/
def recompute (today : String) (t : List Row) : List Row :=
  t.map (recomputeRow today)

/-- A regular-expression pattern matches at the head of a string (both as
character lists), for the fragment of Python `re` that `apply_search`
exercises: a pattern of literal characters and the '.' wildcard. -/
def reMatchAt : List Char → List Char → Bool
  | [], _ => true
  | _ :: _, [] => false
  | p :: ps, c :: cs => (p == '.' || p == c) && reMatchAt ps cs

/-- Model of `re.search`: the pattern matches somewhere in the string.  This models
`Series.str.contains(keyword)` which, with its default `regex=True`,
interprets the keyword as a regular expression; the model covers patterns
built from literal characters and the '.' wildcard. -/
def reSearch (pat : List Char) : List Char → Bool
  | [] => reMatchAt pat []
  | c :: cs => reMatchAt pat (c :: cs) || reSearch pat cs

/-- A pattern matches at the head of a string taking every pattern
character literally (plain substring matching, no wildcard). -/
def litMatchAt : List Char → List Char → Bool
  | [], _ => true
  | _ :: _, [] => false
  | p :: ps, c :: cs => (p == c) && litMatchAt ps cs

/-- The pattern occurs literally as a contiguous substring of the string. -/
def litSub (pat : List Char) : List Char → Bool
  | [] => litMatchAt pat []
  | c :: cs => litMatchAt pat (c :: cs) || litSub pat cs

/-- Python regular-expression metacharacters: a keyword free of these is
matched by `re.search` exactly as a literal substring. -/
def isRegexMeta (c : Char) : Bool :=
  c == '.' || c == '^' || c == '$' || c == '*' || c == '+' || c == '?' ||
  c == '\x7b' || c == '\x7d' || c == '[' || c == ']' || c == '\\' ||
  c == '|' || c == '(' || c == ')'

/-- One row's test in `apply_search` for an already stripped-and-lowercased
keyword: `mask | df[col].astype(str).str.lower().str.contains(keyword)`
over the ten columns — the row is kept when some cell matches. -/
def rowMatches (keyword : List Char) (r : Row) : Bool :=
  (cells r).any fun v => reSearch keyword (pyLower (astype_str v).toList)

/-- The search predicate the specification describes: some cell's
lowercased string form contains the keyword as a literal substring. -/
def rowMatchesSub (keyword : List Char) (r : Row) : Bool :=
  (cells r).any fun v => litSub keyword (pyLower (astype_str v).toList)

/-- The search handler `apply_search`: the keyword is stripped and lowercased
(`self.search.text().strip().lower()`); an empty keyword keeps the full
table, otherwise the rows with a matching cell are kept, in order. -/
def apply_search (raw : String) (t : List Row) : List Row :=
  let keyword := pyLower (pyStrip raw.toList)
  if keyword = [] then t else t.filter (rowMatches keyword)

/-- A calendar date as the due-date filter consumes it. -/
structure Date where
  year : Nat
  month : Nat
  day : Nat
deriving DecidableEq, Repr

/-- Model of `pd.to_datetime(cell, errors='coerce')`, restricted to ISO `YYYY-MM-DD`
strings — the only date format the program writes; any other value
(missing, empty, malformed) coerces to `NaT` (`none`). -/
def to_datetime : Value → Option Date
  | .str s =>
    match splitDash s.toList with
    | [ys, ms, ds] =>
      match natOfDigits ys, natOfDigits ms, natOfDigits ds with
      | some y, some m, some d =>
        if 1 ≤ m && m ≤ 12 && 1 ≤ d && d ≤ 31 then some ⟨y, m, d⟩ else none
      | _, _, _ => none
    | _ => none
  | _ => none

/-- The filter handler `apply_date_filter`: `month = none` models the "All" choice and
`year = none` an empty year box.  An active month (resp. year) constraint
keeps a row only when `parsed.dt.month == m` (resp. `.year == y`); a `NaT`
compares unequal to every number, so rows with an empty or unparseable
Due Date are dropped whenever a constraint is active.  Both constraints
are conjoined onto the mask. -/
def apply_date_filter (month : Option Nat) (year : Option Nat)
    (t : List Row) : List Row :=
  t.filter fun r =>
    (match month with
     | none => true
     | some m =>
       match to_datetime r.dueDate with
       | some d => d.month == m
       | none => false)
    &&
    (match year with
     | none => true
     | some y =>
       match to_datetime r.dueDate with
       | some d => d.year == y
       | none => false)

/-- The handler `delete_selected` on the stored table: drop the row at the selected
index (`df.drop(df.index[row_idx]).reset_index(drop=True)`) and recompute;
an index outside the table is the `IndexError` case. -/
def delete_selected (today : String) (i : Nat) (t : List Row) :
    Option (List Row) :=
  if i < t.length then some (recompute today (t.eraseIdx i)) else none

/-- A concrete partially paid row. -/
def rowPartial : Row :=
  { name := .str "John", mobileNumber := .str "9876543210",
    year := .str "II", dept := .str "CS", feeAmount := .int 5000,
    feePaid := .int 2000, balance := .na, dueDate := .str "2025-03-10",
    email := .str "john@mail.in", feePaidOn := .str "" }

/-- A concrete fully paid row whose Fee Paid On cell is missing (`NaN`),
as pandas reads an empty Excel cell. -/
def rowPaidNaN : Row :=
  { name := .str "Anu", mobileNumber := .str "9000000001",
    year := .str "I", dept := .str "IT", feeAmount := .int 100,
    feePaid := .int 100, balance := .na, dueDate := .str "2025-03-10",
    email := .str "anu@mail.in", feePaidOn := .na }

/-- A concrete row whose Fee Amount cell holds the negative number −5. -/
def rowNegative : Row :=
  { name := .str "Neg", mobileNumber := .str "9000000002",
    year := .str "III", dept := .str "EEE", feeAmount := .int (-5),
    feePaid := .int 0, balance := .na, dueDate := .str "2026-01-01",
    email := .str "neg@mail.in", feePaidOn := .str "" }

/-- A concrete row none of whose rendered cells contains a '.' character. -/
def rowNoDot : Row :=
  { name := .str "John", mobileNumber := .str "9876543210",
    year := .str "II", dept := .str "CS", feeAmount := .int 5000,
    feePaid := .int 2000, balance := .na, dueDate := .str "",
    email := .str "jx", feePaidOn := .str "" }

theorem recomputeRow_name (today : String) (r : Row) :
    (recomputeRow today r).name = r.name := by
  simp only [recomputeRow]
  split <;> rfl

theorem recomputeRow_mobileNumber (today : String) (r : Row) :
    (recomputeRow today r).mobileNumber = r.mobileNumber := by
  simp only [recomputeRow]
  split <;> rfl

theorem recomputeRow_year (today : String) (r : Row) :
    (recomputeRow today r).year = r.year := by
  simp only [recomputeRow]
  split <;> rfl

theorem recomputeRow_dept (today : String) (r : Row) :
    (recomputeRow today r).dept = r.dept := by
  simp only [recomputeRow]
  split <;> rfl

theorem recomputeRow_email (today : String) (r : Row) :
    (recomputeRow today r).email = r.email := by
  simp only [recomputeRow]
  split <;> rfl

theorem recomputeRow_feeAmount (today : String) (r : Row) :
    (recomputeRow today r).feeAmount = .int (fillna0 r.feeAmount) := by
  simp only [recomputeRow]
  split <;> rfl

theorem recomputeRow_feePaid (today : String) (r : Row) :
    (recomputeRow today r).feePaid = .int (fillna0 r.feePaid) := by
  simp only [recomputeRow]
  split <;> rfl

theorem recomputeRow_balance (today : String) (r : Row) :
    (recomputeRow today r).balance
      = .int (max 0 (fillna0 r.feeAmount - fillna0 r.feePaid)) := by
  simp only [recomputeRow]
  split <;> rfl

theorem fillna0_int (n : Int) : fillna0 (.int n) = n := rfl

theorem recomputeRow_idem (today : String) (r : Row) :
    recomputeRow today (recomputeRow today r) = recomputeRow today r := by
  by_cases h : max 0 (fillna0 r.feeAmount - fillna0 r.feePaid) = 0
  · by_cases ht : truthy r.feePaidOn
    · simp [recomputeRow, h, ht, fillna0_int]
    · simp [recomputeRow, h, ht, fillna0_int]
  · simp [recomputeRow, h, fillna0_int]

/-- Concrete scenario: a fully paid row with an empty (string) Fee Paid On
gets Balance 0, a cleared Due Date and today's date as Fee Paid On. -/
theorem recompute_scenario_paid :
    recomputeRow "2025-10-12"
      { name := .str "A", mobileNumber := .str "9", year := .str "I",
        dept := .str "CS", feeAmount := .int 5000, feePaid := .int 5000,
        balance := .na, dueDate := .str "2025-03-10", email := .str "a",
        feePaidOn := .str "" }
    = { name := .str "A", mobileNumber := .str "9", year := .str "I",
        dept := .str "CS", feeAmount := .int 5000, feePaid := .int 5000,
        balance := .int 0, dueDate := .str "", email := .str "a",
        feePaidOn := .str "2025-10-12" } := by decide

/-- Concrete scenario: the same fully paid row with a missing (NaN) Fee
Paid On keeps the missing value — the paid date is not filled in. -/
theorem recompute_scenario_paid_nan :
    recomputeRow "2025-10-12"
      { name := .str "A", mobileNumber := .str "9", year := .str "I",
        dept := .str "CS", feeAmount := .int 5000, feePaid := .int 5000,
        balance := .na, dueDate := .str "2025-03-10", email := .str "a",
        feePaidOn := .na }
    = { name := .str "A", mobileNumber := .str "9", year := .str "I",
        dept := .str "CS", feeAmount := .int 5000, feePaid := .int 5000,
        balance := .int 0, dueDate := .str "", email := .str "a",
        feePaidOn := .na } := by decide

theorem litSub_nil (s : List Char) : litSub [] s = true := by
  cases s <;> rfl

theorem rowMatchesSub_nil (r : Row) : rowMatchesSub [] r = true := by
  simp [rowMatchesSub, cells, litSub_nil]

theorem reMatchAt_eq_litMatchAt (pat : List Char)
    (h : pat.all (fun c => !(c == '.')) = true) (s : List Char) :
    reMatchAt pat s = litMatchAt pat s := by
  induction pat generalizing s with
  | nil => cases s <;> rfl
  | cons p ps ih =>
    simp only [List.all_cons, Bool.and_eq_true] at h
    cases s with
    | nil => rfl
    | cons c cs =>
      have hp : (p == '.') = false := by
        cases hpc : p == '.' <;> simp [hpc] at h ⊢
      simp [reMatchAt, litMatchAt, hp, ih h.2]

theorem reSearch_eq_litSub (pat : List Char)
    (h : pat.all (fun c => !(c == '.')) = true) (s : List Char) :
    reSearch pat s = litSub pat s := by
  induction s with
  | nil => simp [reSearch, litSub, reMatchAt_eq_litMatchAt pat h]
  | cons c cs ih => simp [reSearch, litSub, reMatchAt_eq_litMatchAt pat h, ih]

theorem rowMatches_eq_rowMatchesSub (keyword : List Char)
    (h : keyword.all (fun c => !isRegexMeta c) = true) (r : Row) :
    rowMatches keyword r = rowMatchesSub keyword r := by
  have hdot : keyword.all (fun c => !(c == '.')) = true := by
    rw [List.all_eq_true] at h ⊢
    intro c hc
    have := h c hc
    cases hcd : c == '.'
    · simp
    · rw [show c = '.' from by simpa using hcd] at this
      simp [isRegexMeta] at this
  simp [rowMatches, rowMatchesSub, reSearch_eq_litSub keyword hdot]

/-- C1: after recompute, every row's Balance equals
`max 0 (FeeAmount − FeePaid)` of the integer-parsed input values
(`(df["Fee Amount"] - df["Fee Paid"]).clip(lower=0)` after the
`to_numeric(...).fillna(0).astype(int)` parse of step 1). -/
theorem C1_balance_invariant (today : String) (t : List Row) (i : Nat)
    (h : i < t.length) :
    ((recompute today t).get ⟨i, by simpa [recompute] using h⟩).balance
      = Value.int (max 0 (fillna0 (t.get ⟨i, h⟩).feeAmount
          - fillna0 (t.get ⟨i, h⟩).feePaid)) := by
  simp [recompute, recomputeRow_balance]

/-- Witness for C1 at a concrete one-row table. -/
theorem C1_balance_witness :
    ((recompute "2025-10-12" [rowPartial]).get ⟨0, by decide⟩).balance
      = Value.int (max 0 (fillna0 ([rowPartial].get ⟨0, by decide⟩).feeAmount
          - fillna0 ([rowPartial].get ⟨0, by decide⟩).feePaid)) :=
  C1_balance_invariant "2025-10-12" [rowPartial] 0 (by decide)

/-- C2: the claimed biconditionals fail for a record whose Fee Paid On
cell is missing (`NaN`): Python's `not float('nan')` is `False`, so the
`if not row.get("Fee Paid On")` auto-fill branch is skipped and the paid
date stays missing — rendered as the empty string — although the balance
is 0, contradicting `Balance == 0 ⇒ Fee Paid On non-empty` (and the
module docstring "auto-fills Fee Paid On when balance==0"). -/
theorem C2_nan_paid_on_bug :
    (recomputeRow "2025-10-12" rowPaidNaN).balance = Value.int 0 ∧
    (recomputeRow "2025-10-12" rowPaidNaN).feePaidOn = Value.na ∧
    display (recomputeRow "2025-10-12" rowPaidNaN).feePaidOn = "" := by
  decide

/-- C3: recompute is idempotent — applying it twice with the same current
date yields exactly the same table as applying it once. -/
theorem C3_recompute_idempotent (today : String) (t : List Row) :
    recompute today (recompute today t) = recompute today t := by
  unfold recompute
  rw [List.map_map]
  refine List.map_congr_left fun r _ => ?_
  exact recomputeRow_idem today r

/-- C4: frame conditions of recompute — a row whose computed Balance is 0
and whose Fee Paid On already holds a non-empty string keeps its Fee Paid
On (no overwrite with a new date), and a row whose computed Balance is
positive keeps its input Due Date. -/
theorem C4_recompute_frame (today : String) (r : Row) :
    (∀ s : String, s ≠ "" → r.feePaidOn = Value.str s →
       (recomputeRow today r).balance = Value.int 0 →
       (recomputeRow today r).feePaidOn = r.feePaidOn) ∧
    (∀ b : Int, (recomputeRow today r).balance = Value.int b → 0 < b →
       (recomputeRow today r).dueDate = r.dueDate) := by
  constructor
  · intro s hs hset hbal
    rw [recomputeRow_balance] at hbal
    have h0 : max 0 (fillna0 r.feeAmount - fillna0 r.feePaid) = 0 := by
      simpa using hbal
    simp [recomputeRow, h0, hset, truthy, hs]
  · intro b hbal hpos
    rw [recomputeRow_balance] at hbal
    have hb : max 0 (fillna0 r.feeAmount - fillna0 r.feePaid) = b := by
      simpa using hbal
    have hne : ¬ max 0 (fillna0 r.feeAmount - fillna0 r.feePaid) = 0 := by
      omega
    simp [recomputeRow, hne]

/-- C5: the schema check accepts a header exactly when it is the canonical
ten-field list, byte for byte and in order; in particular the three-column
header and a permuted ten-column header are both rejected. -/
theorem C5_schema_exact :
    (∀ h : List String, headerAccepted h = true ↔ h = STRICT_COLUMNS) ∧
    headerAccepted ["Name", "Mobile Number", "Year"] = false ∧
    headerAccepted ["Mobile Number", "Name", "Year", "Dept", "Fee Amount",
      "Fee Paid", "Balance", "Due Date", "Email", "Fee Paid On"] = false := by
  refine ⟨fun h => ?_, by decide, by decide⟩
  simp [headerAccepted]

/-- C6 as stated is false: `Series.str.contains` defaults to `regex=True`,
so the keyword "." is a wildcard matching any character rather than a
literal dot.  On a one-row table none of whose rendered cells contains a
'.', the search keeps the row although no cell has "." as a substring. -/
theorem C6_substring_counterexample :
    apply_search "." [rowNoDot] = [rowNoDot] ∧
    List.filter (rowMatchesSub ".".toList) [rowNoDot] = [] := by
  decide

/-- C6 amended: the empty keyword returns the full table unchanged, and a
keyword whose stripped, lowercased form contains no regular-expression
metacharacter keeps exactly the rows where some cell's string form,
lowercased, contains that form as a literal substring (in general the
keyword is interpreted as a regular expression, not a literal). -/
theorem C6_search_characterization (t : List Row) (raw : String)
    (hmeta : (pyLower (pyStrip raw.toList)).all (fun c => !isRegexMeta c)
      = true) :
    apply_search "" t = t ∧
    apply_search raw t
      = t.filter (rowMatchesSub (pyLower (pyStrip raw.toList))) := by
  have hs : apply_search raw t
      = if pyLower (pyStrip raw.toList) = [] then t
        else t.filter (rowMatches (pyLower (pyStrip raw.toList))) := rfl
  refine ⟨rfl, ?_⟩
  by_cases hk : pyLower (pyStrip raw.toList) = []
  · rw [hs, if_pos hk, hk]
    exact (List.filter_eq_self.mpr fun r _ => rowMatchesSub_nil r).symm
  · rw [hs, if_neg hk]
    exact List.filter_congr fun r _ =>
      rowMatches_eq_rowMatchesSub _ hmeta r

/-- Witness for C6 at a concrete keyword (with surrounding blanks and
mixed case) on a concrete two-row table. -/
theorem C6_search_witness :
    apply_search "" [rowPartial, rowPaidNaN] = [rowPartial, rowPaidNaN] ∧
    apply_search " JoHn " [rowPartial, rowPaidNaN]
      = List.filter (rowMatchesSub (pyLower (pyStrip " JoHn ".toList)))
          [rowPartial, rowPaidNaN] :=
  C6_search_characterization [rowPartial, rowPaidNaN] " JoHn " (by decide)

/-- C7: with no active constraint the due-date filter returns the full
table; with an active month and/or year constraint a row is kept exactly
when its Due Date parses and every active constraint holds (conjoined),
so empty or unparseable due dates are excluded. -/
theorem C7_date_filter_characterization (t : List Row)
    (month year : Option Nat) (r : Row) :
    apply_date_filter none none t = t ∧
    ((month.isSome ∨ year.isSome) →
      (r ∈ apply_date_filter month year t ↔
        r ∈ t ∧ ∃ d, to_datetime r.dueDate = some d ∧
          (∀ m, month = some m → d.month = m) ∧
          (∀ y, year = some y → d.year = y))) := by
  constructor
  · exact List.filter_eq_self.mpr fun x _ => rfl
  · intro hsome
    rw [apply_date_filter, List.mem_filter]
    refine and_congr_right fun _ => ?_
    cases month with
    | none =>
      cases year with
      | none => simp at hsome
      | some y => cases hd : to_datetime r.dueDate <;> simp [hd]
    | some m =>
      cases year with
      | none => cases hd : to_datetime r.dueDate <;> simp [hd]
      | some y =>
        cases hd : to_datetime r.dueDate with
        | none => simp [hd]
        | some d => simp [hd]

/-- C8 as stated is false: a Fee Amount cell holding the integer −5 passes
`to_numeric` unchanged (no clamping in the source), so after recompute the
Fee Amount is the negative integer −5. -/
theorem C8_negative_counterexample :
    (recomputeRow "2025-10-12" rowNegative).feeAmount = Value.int (-5) ∧
    (-5 : Int) < 0 := by
  decide

/-- C8 amended: after recompute, Fee Amount and Fee Paid hold exactly the
parsed integer — 0 when the cell is missing or fails to parse — and the
Balance is non-negative; the fee fields are therefore non-negative for
every input that does not parse to a negative integer, but an input that
parses to a negative integer is kept negative. -/
theorem C8_fee_parse (today : String) (r : Row) :
    (recomputeRow today r).feeAmount = Value.int (fillna0 r.feeAmount) ∧
    (recomputeRow today r).feePaid = Value.int (fillna0 r.feePaid) ∧
    (to_numeric r.feeAmount = none → fillna0 r.feeAmount = 0) ∧
    (to_numeric r.feePaid = none → fillna0 r.feePaid = 0) ∧
    (∀ n : Int, to_numeric r.feeAmount = some n → 0 ≤ n →
       fillna0 r.feeAmount = n ∧ 0 ≤ fillna0 r.feeAmount) ∧
    (∀ b : Int, (recomputeRow today r).balance = Value.int b → 0 ≤ b) := by
  refine ⟨recomputeRow_feeAmount today r, recomputeRow_feePaid today r,
    ?_, ?_, ?_, ?_⟩
  · intro hn
    simp [fillna0, hn]
  · intro hn
    simp [fillna0, hn]
  · intro n hn hpos
    have : fillna0 r.feeAmount = n := by simp [fillna0, hn]
    exact ⟨this, by omega⟩
  · intro b hbal
    rw [recomputeRow_balance] at hbal
    have : max 0 (fillna0 r.feeAmount - fillna0 r.feePaid) = b := by
      simpa using hbal
    omega

/-- C9: deleting a valid index removes exactly that row and re-indexes the
remaining rows contiguously in their original order, their contents
changed only by the recompute that is reapplied. -/
theorem C9_delete_reindex (today : String) (t : List Row) (i : Nat)
    (h : i < t.length) :
    ∃ u, delete_selected today i t = some u ∧
      u.length = t.length - 1 ∧
      (∀ j, j < i → u[j]? = (t[j]?).map (recomputeRow today)) ∧
      (∀ j, i ≤ j → u[j]? = (t[j + 1]?).map (recomputeRow today)) := by
  refine ⟨recompute today (t.eraseIdx i), ?_, ?_, ?_, ?_⟩
  · simp [delete_selected, h]
  · simp [recompute, List.length_eraseIdx, h]
  · intro j hj
    simp [recompute, List.getElem?_map, List.getElem?_eraseIdx_of_lt _ _ _ hj]
  · intro j hj
    simp [recompute, List.getElem?_map, List.getElem?_eraseIdx_of_ge _ _ _ hj]

/-- Witness for C9: deleting index 1 of a concrete three-row table. -/
theorem C9_delete_witness :
    ∃ u, delete_selected "2025-10-12" 1 [rowPartial, rowPaidNaN, rowNegative]
        = some u ∧
      u.length = [rowPartial, rowPaidNaN, rowNegative].length - 1 ∧
      (∀ j, j < 1 → u[j]?
        = ([rowPartial, rowPaidNaN, rowNegative][j]?).map
            (recomputeRow "2025-10-12")) ∧
      (∀ j, 1 ≤ j → u[j]?
        = ([rowPartial, rowPaidNaN, rowNegative][j + 1]?).map
            (recomputeRow "2025-10-12")) :=
  C9_delete_reindex "2025-10-12" [rowPartial, rowPaidNaN, rowNegative] 1
    (by decide)

/-- C10: recompute keeps the number and order of rows and leaves the
non-derived fields Name, Mobile Number, Year, Dept and Email of every row
unchanged (only Fee Amount, Fee Paid, Balance, Due Date and Fee Paid On
can differ). -/
theorem C10_recompute_preserves_static_fields (today : String)
    (t : List Row) :
    (recompute today t).length = t.length ∧
    ∀ i : Nat,
      ((recompute today t)[i]?).map Row.name = (t[i]?).map Row.name ∧
      ((recompute today t)[i]?).map Row.mobileNumber
        = (t[i]?).map Row.mobileNumber ∧
      ((recompute today t)[i]?).map Row.year = (t[i]?).map Row.year ∧
      ((recompute today t)[i]?).map Row.dept = (t[i]?).map Row.dept ∧
      ((recompute today t)[i]?).map Row.email = (t[i]?).map Row.email := by
  refine ⟨by simp [recompute], fun i => ?_⟩
  cases ht : t[i]? with
  | none => simp [recompute, List.getElem?_map, ht]
  | some r =>
    simp [recompute, List.getElem?_map, ht, recomputeRow_name,
      recomputeRow_mobileNumber, recomputeRow_year, recomputeRow_dept,
      recomputeRow_email]
